import Mathlib

/-
Verification development for the Monitor-Manager repository.

The repository has two variants of the same tool:
  * monitor_manager.py - console variant (function main);
  * main.py            - GUI variant (class MonitorThread plus tray glue).

Both variants share the Windows display-API wrappers `get_all_monitors`,
`save_monitor_settings`, `disable_monitor` and `restore_monitor`, a global
dictionary `monitor_settings`, and an edge-triggered polling loop over a
process-presence sample.

The embedding below models the OS as an oracle (`OsEnv`): the response of
the n-th `get_all_monitors` enumeration and the integer result code of the
n-th `ChangeDisplaySettingsEx` call.  Every `ChangeDisplaySettingsEx` call
the program issues is logged as a `CdsCall` value recording the device
name, the DEVMODE structure passed by reference, and the flags argument.
Ghost fields (`calls`, `disabledSet`, `disablePasses`, `restorePasses`)
record the observable history; the remaining state fields are the Python
variables of the source.
-/

/- Constants from the top of monitor_manager.py / main.py. -/

def ENUM_CURRENT_SETTINGS : Int := -1

def CDS_UPDATEREGISTRY : Nat := 0x01

def DISP_CHANGE_SUCCESSFUL : Int := 0

def DM_PELSWIDTH : Nat := 0x80000

def DM_PELSHEIGHT : Nat := 0x100000

def DM_DISPLAYORIENTATION : Nat := 0x00000080

def DM_POSITION : Nat := 0x00000020

/-- Byte size of the DEVMODE ctypes structure (ctypes.sizeof(DEVMODE)); the
concrete number is irrelevant to every property proved here. -/
def sizeof_DEVMODE : Nat := 220

/-- The DEVMODE ctypes structure.  ctypes zero-initialises every field, so
each field defaults to 0 (empty string for the wide-char arrays). -/
structure DEVMODE where
  dmDeviceName : String := ""
  dmSpecVersion : Nat := 0
  dmDriverVersion : Nat := 0
  dmSize : Nat := 0
  dmDriverExtra : Nat := 0
  dmFields : Nat := 0
  dmPositionX : Int := 0
  dmPositionY : Int := 0
  dmDisplayOrientation : Nat := 0
  dmDisplayFixedOutput : Nat := 0
  dmColor : Int := 0
  dmDuplex : Int := 0
  dmYResolution : Int := 0
  dmTTOption : Int := 0
  dmCollate : Int := 0
  dmFormName : String := ""
  dmLogPixels : Nat := 0
  dmBitsPerPel : Nat := 0
  dmPelsWidth : Nat := 0
  dmPelsHeight : Nat := 0
  dmDisplayFlags : Nat := 0
  dmDisplayFrequency : Nat := 0
  dmICMMethod : Nat := 0
  dmICMIntent : Nat := 0
  dmMediaType : Nat := 0
  dmDitherType : Nat := 0
  dmReserved1 : Nat := 0
  dmReserved2 : Nat := 0
  dmPanningWidth : Nat := 0
  dmPanningHeight : Nat := 0
  deriving DecidableEq

/-- The DISPLAY_DEVICE ctypes structure (cb field omitted: it only carries
the struct size for the OS call). -/
structure DISPLAY_DEVICE where
  DeviceName : String := ""
  DeviceString : String := ""
  StateFlags : Nat := 0
  DeviceID : String := ""
  DeviceKey : String := ""
  deriving DecidableEq

/-- One entry of an EnumDisplayDevices response: the device data and the
result of the EnumDisplaySettings query for it (`none` when that query
returns FALSE).  A full enumeration response is the list of entries for
indices 0, 1, ... up to (excluding) the first index at which
EnumDisplayDevices returns FALSE. -/
structure EnumEntry where
  device : DISPLAY_DEVICE
  mode : Option DEVMODE
  deriving DecidableEq

/-- The dictionary built by get_all_monitors for one display. -/
structure Monitor where
  index : Nat
  name : String
  description : String
  settings : DEVMODE
  is_primary : Bool
  deriving DecidableEq

/-- get_all_monitors: walk the enumeration response in index order, keep
devices whose StateFlags has bit 1 (DISPLAY_DEVICE_ATTACHED_TO_DESKTOP),
skip a device whose EnumDisplaySettings query failed, and flag primaries
via bit 4 (DISPLAY_DEVICE_PRIMARY_DEVICE). -/
def get_all_monitors (resp : List EnumEntry) : List Monitor :=
  resp.enum.filterMap (fun p =>
    if p.2.device.StateFlags &&& 1 ≠ 0 then
      match p.2.mode with
      | some dm =>
          some { index := p.1
               , name := p.2.device.DeviceName
               , description := p.2.device.DeviceString
               , settings := dm
               , is_primary := p.2.device.StateFlags &&& 4 != 0 }
      | none => none
    else none)

/-- The global `monitor_settings` Python dict, as an insertion-ordered
association list from device name to DEVMODE. -/
abbrev SettingsMap := List (String × DEVMODE)

/-- Dictionary lookup: `monitor_settings[name]` / `name in monitor_settings`. -/
def mapLookup (m : SettingsMap) (q : String) : Option DEVMODE :=
  match m with
  | [] => none
  | (k, v) :: rest => if k = q then some v else mapLookup rest q

/-- Dictionary assignment `monitor_settings[k] = v`: overwrite in place if
the key exists, else append (Python dicts keep insertion order). -/
def mapInsert (m : SettingsMap) (k : String) (v : DEVMODE) : SettingsMap :=
  match m with
  | [] => [(k, v)]
  | (k2, v2) :: rest =>
      if k2 = k then (k, v) :: rest else (k2, v2) :: mapInsert rest k v

/-- save_monitor_settings: for every monitor of a fresh enumeration,
`monitor_settings[monitor['name']] = monitor['settings']`. -/
def save_monitor_settings (m : SettingsMap) (resp : List EnumEntry) : SettingsMap :=
  (get_all_monitors resp).foldl (fun acc mon => mapInsert acc mon.name mon.settings) m

/-- A ChangeDisplaySettingsEx call as issued by the program: target device
name, the DEVMODE passed by reference, and the dwflags argument. -/
structure CdsCall where
  deviceName : String
  devmode : DEVMODE
  flags : Nat
  deriving DecidableEq

/-- The DEVMODE built inside disable_monitor: zero-initialised, then
dmSize set, dmFields set to DM_PELSWIDTH | DM_PELSHEIGHT | DM_POSITION,
and dmPelsWidth = dmPelsHeight = 0. -/
def disableDevmode : DEVMODE :=
  { dmSize := sizeof_DEVMODE
  , dmFields := DM_PELSWIDTH ||| DM_PELSHEIGHT ||| DM_POSITION
  , dmPelsWidth := 0
  , dmPelsHeight := 0 }

/-- The single ChangeDisplaySettingsEx call issued by disable_monitor:
ChangeDisplaySettingsEx(monitor_name, byref(devmode), None, 0, None) -
note the flags argument in the source is the literal 0. -/
def disable_call (monitor_name : String) : CdsCall :=
  { deviceName := monitor_name, devmode := disableDevmode, flags := 0 }

/-- disable_monitor: issues `disable_call` and returns
result == DISP_CHANGE_SUCCESSFUL, where `osResult` is the code the OS
returns for this call. -/
def disable_monitor (monitor_name : String) (osResult : Int) : CdsCall × Bool :=
  (disable_call monitor_name, osResult == DISP_CHANGE_SUCCESSFUL)

/-- The single ChangeDisplaySettingsEx call issued by restore_monitor:
the stored settings structure is passed by reference, unmodified, with
flags argument 0. -/
def restore_call (monitor_name : String) (settings : DEVMODE) : CdsCall :=
  { deviceName := monitor_name, devmode := settings, flags := 0 }

/-- restore_monitor: issues `restore_call` and returns
result == DISP_CHANGE_SUCCESSFUL. -/
def restore_monitor (monitor_name : String) (settings : DEVMODE) (osResult : Int) :
    CdsCall × Bool :=
  (restore_call monitor_name settings, osResult == DISP_CHANGE_SUCCESSFUL)

/-- The OS oracle: `enumAt n` is the response to the n-th enumeration pass
(n-th call of get_all_monitors), `cdsAt n` the result code of the n-th
ChangeDisplaySettingsEx call. -/
structure OsEnv where
  enumAt : Nat → List EnumEntry
  cdsAt : Nat → Int

/-- State of the console variant's main function: the Python locals
`secondary_monitors`, `lol_was_running`, `monitors_disabled`, the global
`monitor_settings`, plus ghost history (issued calls, identifiers the
disable pass acted on, pass counters) and the CDS call counter used to
index the oracle. -/
structure ConsoleState where
  secondary_monitors : List Monitor
  monitor_settings : SettingsMap
  lol_was_running : Bool
  monitors_disabled : Bool
  cdsCount : Nat
  calls : List CdsCall
  disabledSet : List String
  disablePasses : Nat
  restorePasses : Nat
  deriving DecidableEq

/-- Console startup (monitor_manager.main before the loop):
save_monitor_settings(), then a second get_all_monitors() call from which
the fixed secondary_monitors list is computed. -/
def consoleInit (env : OsEnv) : ConsoleState :=
  { secondary_monitors :=
      (get_all_monitors (env.enumAt 1)).filter (fun m => !m.is_primary)
  , monitor_settings := save_monitor_settings [] (env.enumAt 0)
  , lol_was_running := false
  , monitors_disabled := false
  , cdsCount := 0
  , calls := []
  , disabledSet := []
  , disablePasses := 0
  , restorePasses := 0 }

/-- Console disable-pass body for one monitor: disable_monitor, and on
failure sleep 0.5 s and retry exactly once (the retry's own result is only
printed). -/
def consoleDisableOne (env : OsEnv) (st : ConsoleState) (mon : Monitor) : ConsoleState :=
  let r := disable_monitor mon.name (env.cdsAt st.cdsCount)
  if r.2 then
    { st with cdsCount := st.cdsCount + 1
            , calls := st.calls ++ [r.1]
            , disabledSet := st.disabledSet ++ [mon.name] }
  else
    let r2 := disable_monitor mon.name (env.cdsAt (st.cdsCount + 1))
    { st with cdsCount := st.cdsCount + 2
            , calls := st.calls ++ [r.1, r2.1]
            , disabledSet := st.disabledSet ++ [mon.name] }

/-- Console restore-pass body for one monitor: only acts when the name is
a key of monitor_settings; on failure retries exactly once. -/
def consoleRestoreOne (env : OsEnv) (st : ConsoleState) (mon : Monitor) : ConsoleState :=
  match mapLookup st.monitor_settings mon.name with
  | none => st
  | some s =>
    let r := restore_monitor mon.name s (env.cdsAt st.cdsCount)
    if r.2 then
      { st with cdsCount := st.cdsCount + 1
              , calls := st.calls ++ [r.1] }
    else
      let r2 := restore_monitor mon.name s (env.cdsAt (st.cdsCount + 1))
      { st with cdsCount := st.cdsCount + 2
              , calls := st.calls ++ [r.1, r2.1] }

/-- One iteration of the console while-loop, given the value the presence
check is_lol_running() returned for this cycle. -/
def consoleStep (env : OsEnv) (st : ConsoleState) (lol_is_running : Bool) : ConsoleState :=
  if lol_is_running && !st.lol_was_running then
    let st2 := st.secondary_monitors.foldl (consoleDisableOne env) st
    { st2 with monitors_disabled := true
             , lol_was_running := true
             , disablePasses := st2.disablePasses + 1 }
  else if !lol_is_running && st.lol_was_running then
    let st2 := st.secondary_monitors.foldl (consoleRestoreOne env) st
    { st2 with monitors_disabled := false
             , lol_was_running := false
             , restorePasses := st2.restorePasses + 1
             , disabledSet := [] }
  else st

/-- The console loop run over a finite sequence of presence samples. -/
def consoleRun (env : OsEnv) (samples : List Bool) : ConsoleState :=
  samples.foldl (consoleStep env) (consoleInit env)

/-- Body of the console KeyboardInterrupt restore loop for one monitor:
restore only when the name is in monitor_settings; result ignored, no
retry. -/
def consoleShutdownOne (env : OsEnv) (st : ConsoleState) (mon : Monitor) : ConsoleState :=
  match mapLookup st.monitor_settings mon.name with
  | none => st
  | some s =>
    let r := restore_monitor mon.name s (env.cdsAt st.cdsCount)
    { st with cdsCount := st.cdsCount + 1
            , calls := st.calls ++ [r.1] }

/-- The console KeyboardInterrupt handler: if monitors_disabled, restore
each startup-list secondary monitor that has a snapshot entry. -/
def consoleShutdown (env : OsEnv) (st : ConsoleState) : ConsoleState :=
  if st.monitors_disabled then
    st.secondary_monitors.foldl (consoleShutdownOne env) st
  else st

/-- State of the GUI variant's MonitorThread plus the shared global
monitor_settings (written once by SystemTrayApp startup).  The GUI loop
holds no secondary-monitor list: it re-enumerates on every edge, so the
state carries an enumeration-call counter. -/
structure GuiState where
  monitor_settings : SettingsMap
  process_was_running : Bool
  monitors_disabled : Bool
  enumCount : Nat
  cdsCount : Nat
  calls : List CdsCall
  disabledSet : List String
  disablePasses : Nat
  restorePasses : Nat
  deriving DecidableEq

/-- GUI startup: SystemTrayApp.__init__ calls save_monitor_settings()
once before starting MonitorThread. -/
def guiInit (env : OsEnv) : GuiState :=
  { monitor_settings := save_monitor_settings [] (env.enumAt 0)
  , process_was_running := false
  , monitors_disabled := false
  , enumCount := 1
  , cdsCount := 0
  , calls := []
  , disabledSet := []
  , disablePasses := 0
  , restorePasses := 0 }

/-- GUI disable-pass body for one monitor: a single disable_monitor call;
the result only selects the emitted status string, there is no retry. -/
def guiDisableOne (env : OsEnv) (st : GuiState) (mon : Monitor) : GuiState :=
  let r := disable_monitor mon.name (env.cdsAt st.cdsCount)
  { st with cdsCount := st.cdsCount + 1
          , calls := st.calls ++ [r.1]
          , disabledSet := st.disabledSet ++ [mon.name] }

/-- GUI restore-pass body for one monitor: only when the name is a key of
monitor_settings; a single restore_monitor call, no retry. -/
def guiRestoreOne (env : OsEnv) (st : GuiState) (mon : Monitor) : GuiState :=
  match mapLookup st.monitor_settings mon.name with
  | none => st
  | some s =>
    let r := restore_monitor mon.name s (env.cdsAt st.cdsCount)
    { st with cdsCount := st.cdsCount + 1
            , calls := st.calls ++ [r.1] }

/-- One iteration of MonitorThread.run's while-loop, given the value
is_target_running() returned for this cycle.  Both edge branches perform a
fresh get_all_monitors() enumeration. -/
def guiStep (env : OsEnv) (st : GuiState) (process_is_running : Bool) : GuiState :=
  if process_is_running && !st.process_was_running then
    let secondary :=
      (get_all_monitors (env.enumAt st.enumCount)).filter (fun m => !m.is_primary)
    let st2 := secondary.foldl (guiDisableOne env) { st with enumCount := st.enumCount + 1 }
    { st2 with monitors_disabled := true
             , process_was_running := true
             , disablePasses := st2.disablePasses + 1 }
  else if !process_is_running && st.process_was_running then
    let secondary :=
      (get_all_monitors (env.enumAt st.enumCount)).filter (fun m => !m.is_primary)
    let st2 := secondary.foldl (guiRestoreOne env) { st with enumCount := st.enumCount + 1 }
    { st2 with monitors_disabled := false
             , process_was_running := false
             , restorePasses := st2.restorePasses + 1
             , disabledSet := [] }
  else st

/-- The MonitorThread loop run over a finite sequence of presence samples. -/
def guiRun (env : OsEnv) (samples : List Bool) : GuiState :=
  samples.foldl (guiStep env) (guiInit env)

/-- Body of MonitorThread.stop's restore loop for one monitor. -/
def guiStopOne (env : OsEnv) (st : GuiState) (mon : Monitor) : GuiState :=
  match mapLookup st.monitor_settings mon.name with
  | none => st
  | some s =>
    let r := restore_monitor mon.name s (env.cdsAt st.cdsCount)
    { st with cdsCount := st.cdsCount + 1
            , calls := st.calls ++ [r.1] }

/-- MonitorThread.stop: if monitors_disabled, enumerate afresh and restore
every secondary monitor that has a snapshot entry. -/
def guiStop (env : OsEnv) (st : GuiState) : GuiState :=
  if st.monitors_disabled then
    let secondary :=
      (get_all_monitors (env.enumAt st.enumCount)).filter (fun m => !m.is_primary)
    secondary.foldl (guiStopOne env) { st with enumCount := st.enumCount + 1 }
  else st

/- Derived notions used by the statements. -/

/-- The restore calls a single-attempt restore pass over a monitor list
issues: one call per monitor whose name has a snapshot entry, carrying the
stored DEVMODE verbatim. -/
def restoreAttempts (ms : List Monitor) (settings : SettingsMap) : List CdsCall :=
  ms.filterMap (fun m => (mapLookup settings m.name).map (fun s => restore_call m.name s))

/-- The mode the LAST occurrence of a name in a monitor list carries (the
capture that survives a save_monitor_settings pass over that list). -/
def pickLast : List Monitor → String → Option DEVMODE
  | [], _ => none
  | mon :: rest, q =>
      match pickLast rest q with
      | some m => some m
      | none => if mon.name = q then some mon.settings else none

/-- Number of false-to-true transitions in a sample sequence, relative to
the given previous sample. -/
def countRising : Bool → List Bool → Nat
  | _, [] => 0
  | prev, s :: rest => (if s && !prev then 1 else 0) + countRising s rest

/-- Number of true-to-false transitions in a sample sequence, relative to
the given previous sample. -/
def countFalling : Bool → List Bool → Nat
  | _, [] => 0
  | prev, s :: rest => (if !s && prev then 1 else 0) + countFalling s rest

/-- The console-state fields no per-monitor pass body ever writes. -/
def consoleFrame (st : ConsoleState) :
    SettingsMap × List Monitor × Bool × Bool × Nat × Nat :=
  (st.monitor_settings, st.secondary_monitors, st.lol_was_running,
   st.monitors_disabled, st.disablePasses, st.restorePasses)

/-- The GUI-state fields no per-monitor pass body ever writes. -/
def guiFrame (st : GuiState) : SettingsMap × Bool × Bool × Nat × Nat :=
  (st.monitor_settings, st.process_was_running, st.monitors_disabled,
   st.disablePasses, st.restorePasses)

/-- An OS oracle whose enumeration answer never changes and whose mode
changes always succeed. -/
def constEnv (E : List EnumEntry) : OsEnv :=
  { enumAt := fun _ => E, cdsAt := fun _ => 0 }

/-- Correspondence between a console-loop state and a GUI-loop state under
a constant enumeration answer E. -/
def SimRel (E : List EnumEntry) (c : ConsoleState) (g : GuiState) : Prop :=
  c.calls = g.calls
  ∧ c.monitor_settings = save_monitor_settings [] E
  ∧ g.monitor_settings = save_monitor_settings [] E
  ∧ c.lol_was_running = g.process_was_running
  ∧ c.secondary_monitors = (get_all_monitors E).filter (fun m => !m.is_primary)

/- Concrete devices, modes and oracles used by closed statements. -/

/-- A primary attached display (StateFlags bits 1 and 4 set). -/
def primDev : DISPLAY_DEVICE :=
  { DeviceName := "DISPLAY1", DeviceString := "Primary", StateFlags := 5 }

/-- A secondary attached display. -/
def secDev : DISPLAY_DEVICE :=
  { DeviceName := "DISPLAY2", DeviceString := "Secondary", StateFlags := 1 }

/-- Another secondary attached display. -/
def secDev3 : DISPLAY_DEVICE :=
  { DeviceName := "DISPLAY3", DeviceString := "Another", StateFlags := 1 }

/-- A current mode for the primary display. -/
def modeP : DEVMODE := { dmPelsWidth := 2560, dmPelsHeight := 1440 }

/-- A current mode for a secondary display. -/
def modeS : DEVMODE := { dmPelsWidth := 1920, dmPelsHeight := 1080, dmPositionX := 2560 }

/-- An enumeration response reporting the primary display with mode `modeP`. -/
def respA : List EnumEntry := [⟨primDev, some modeP⟩]

/-- An enumeration response reporting the primary display with mode `modeS`. -/
def respB : List EnumEntry := [⟨primDev, some modeS⟩]

/-- An enumeration response with one primary and one secondary display. -/
def stableResp : List EnumEntry := [⟨primDev, some modeP⟩, ⟨secDev, some modeS⟩]

/-- Constant two-display oracle with every mode change succeeding. -/
def envStable : OsEnv := constEnv stableResp

/-- Oracle for which the secondary display's EnumDisplaySettings query
fails during the baseline enumeration (call 0) and succeeds on every later
enumeration; all mode changes succeed. -/
def envC1 : OsEnv :=
  { enumAt := fun n =>
      if n = 0 then [⟨primDev, some modeP⟩, ⟨secDev, none⟩]
      else stableResp
  , cdsAt := fun _ => 0 }

/-- Two-display oracle whose first ChangeDisplaySettingsEx call fails
(code 1) and whose later calls succeed. -/
def envC3 : OsEnv :=
  { enumAt := fun _ => stableResp
  , cdsAt := fun n => if n = 0 then 1 else 0 }

/-- Oracle for which the baseline enumeration (call 0) reports only the
primary display while every later enumeration also reports the secondary;
all mode changes succeed. -/
def envC6 : OsEnv :=
  { enumAt := fun n =>
      if n = 0 then [⟨primDev, some modeP⟩]
      else stableResp
  , cdsAt := fun _ => 0 }

/-- Oracle whose first two enumerations (consumed at startup) report the
secondary DISPLAY2 while every later enumeration reports DISPLAY3 instead;
all mode changes succeed. -/
def envC8 : OsEnv :=
  { enumAt := fun n =>
      if n ≤ 1 then stableResp
      else [⟨primDev, some modeP⟩, ⟨secDev3, some modeS⟩]
  , cdsAt := fun _ => 0 }

/-- Two-display oracle whose first ChangeDisplaySettingsEx call fails and
whose later calls succeed (used to compare the two variants). -/
def envC9 : OsEnv :=
  { enumAt := fun _ => stableResp
  , cdsAt := fun n => if n = 0 then 1 else 0 }

/-- The secondary display's get_all_monitors record under `stableResp`. -/
def monS : Monitor :=
  { index := 1, name := "DISPLAY2", description := "Secondary"
  , settings := modeS, is_primary := false }

/-- A console state in the Disabled stage whose secondary display has a
snapshot entry. -/
def stDisabled : ConsoleState :=
  { secondary_monitors := [monS]
  , monitor_settings := [("DISPLAY2", modeS)]
  , lol_was_running := true
  , monitors_disabled := true
  , cdsCount := 1
  , calls := [disable_call "DISPLAY2"]
  , disabledSet := ["DISPLAY2"]
  , disablePasses := 1
  , restorePasses := 0 }

/-- A GUI state in the Disabled stage whose secondary display has a
snapshot entry. -/
def gDisabled : GuiState :=
  { monitor_settings := [("DISPLAY2", modeS)]
  , process_was_running := true
  , monitors_disabled := true
  , enumCount := 2
  , cdsCount := 1
  , calls := [disable_call "DISPLAY2"]
  , disabledSet := ["DISPLAY2"]
  , disablePasses := 1
  , restorePasses := 0 }

/- Generic fold invariant. -/

/-- A projection preserved by every step of a fold is preserved by the
whole fold. -/
theorem foldl_proj_inv {α β γ : Type _} (f : α → β → α) (g : α → γ)
    (h : ∀ a b, g (f a b) = g a) :
    ∀ (l : List β) (a : α), g (l.foldl f a) = g a := by
  intro l
  induction l with
  | nil => intro a; rfl
  | cons b t ih => intro a; rw [List.foldl_cons, ih, h]

/- Frame lemmas: the per-monitor pass bodies only write cdsCount, calls
and disabledSet. -/

theorem consoleDisableOne_frame (env : OsEnv) (st : ConsoleState) (mon : Monitor) :
    consoleFrame (consoleDisableOne env st mon) = consoleFrame st := by
  simp only [consoleDisableOne]
  split <;> rfl

theorem consoleRestoreOne_frame (env : OsEnv) (st : ConsoleState) (mon : Monitor) :
    consoleFrame (consoleRestoreOne env st mon) = consoleFrame st := by
  simp only [consoleRestoreOne]
  split
  · rfl
  · split <;> rfl

theorem consoleShutdownOne_frame (env : OsEnv) (st : ConsoleState) (mon : Monitor) :
    consoleFrame (consoleShutdownOne env st mon) = consoleFrame st := by
  simp only [consoleShutdownOne]
  split <;> rfl

theorem guiDisableOne_frame (env : OsEnv) (st : GuiState) (mon : Monitor) :
    guiFrame (guiDisableOne env st mon) = guiFrame st := by
  rfl

theorem guiRestoreOne_frame (env : OsEnv) (st : GuiState) (mon : Monitor) :
    guiFrame (guiRestoreOne env st mon) = guiFrame st := by
  simp only [guiRestoreOne]
  split <;> rfl

theorem guiStopOne_frame (env : OsEnv) (st : GuiState) (mon : Monitor) :
    guiFrame (guiStopOne env st mon) = guiFrame st := by
  simp only [guiStopOne]
  split <;> rfl

theorem foldl_consoleDisableOne_frame (env : OsEnv) (ms : List Monitor) (st : ConsoleState) :
    (ms.foldl (consoleDisableOne env) st).monitor_settings = st.monitor_settings
    ∧ (ms.foldl (consoleDisableOne env) st).secondary_monitors = st.secondary_monitors
    ∧ (ms.foldl (consoleDisableOne env) st).lol_was_running = st.lol_was_running
    ∧ (ms.foldl (consoleDisableOne env) st).monitors_disabled = st.monitors_disabled
    ∧ (ms.foldl (consoleDisableOne env) st).disablePasses = st.disablePasses
    ∧ (ms.foldl (consoleDisableOne env) st).restorePasses = st.restorePasses := by
  have h := foldl_proj_inv (consoleDisableOne env) consoleFrame
      (fun a b => consoleDisableOne_frame env a b) ms st
  simpa [consoleFrame, Prod.ext_iff] using h

theorem foldl_consoleRestoreOne_frame (env : OsEnv) (ms : List Monitor) (st : ConsoleState) :
    (ms.foldl (consoleRestoreOne env) st).monitor_settings = st.monitor_settings
    ∧ (ms.foldl (consoleRestoreOne env) st).secondary_monitors = st.secondary_monitors
    ∧ (ms.foldl (consoleRestoreOne env) st).lol_was_running = st.lol_was_running
    ∧ (ms.foldl (consoleRestoreOne env) st).monitors_disabled = st.monitors_disabled
    ∧ (ms.foldl (consoleRestoreOne env) st).disablePasses = st.disablePasses
    ∧ (ms.foldl (consoleRestoreOne env) st).restorePasses = st.restorePasses := by
  have h := foldl_proj_inv (consoleRestoreOne env) consoleFrame
      (fun a b => consoleRestoreOne_frame env a b) ms st
  simpa [consoleFrame, Prod.ext_iff] using h

theorem foldl_consoleShutdownOne_frame (env : OsEnv) (ms : List Monitor) (st : ConsoleState) :
    (ms.foldl (consoleShutdownOne env) st).monitor_settings = st.monitor_settings := by
  have h := foldl_proj_inv (consoleShutdownOne env) consoleFrame
      (fun a b => consoleShutdownOne_frame env a b) ms st
  have h2 := congrArg Prod.fst h
  simpa [consoleFrame] using h2

theorem foldl_guiDisableOne_frame (env : OsEnv) (ms : List Monitor) (st : GuiState) :
    (ms.foldl (guiDisableOne env) st).monitor_settings = st.monitor_settings
    ∧ (ms.foldl (guiDisableOne env) st).process_was_running = st.process_was_running
    ∧ (ms.foldl (guiDisableOne env) st).monitors_disabled = st.monitors_disabled
    ∧ (ms.foldl (guiDisableOne env) st).disablePasses = st.disablePasses
    ∧ (ms.foldl (guiDisableOne env) st).restorePasses = st.restorePasses := by
  have h := foldl_proj_inv (guiDisableOne env) guiFrame
      (fun a b => guiDisableOne_frame env a b) ms st
  simpa [guiFrame, Prod.ext_iff] using h

theorem foldl_guiRestoreOne_frame (env : OsEnv) (ms : List Monitor) (st : GuiState) :
    (ms.foldl (guiRestoreOne env) st).monitor_settings = st.monitor_settings
    ∧ (ms.foldl (guiRestoreOne env) st).process_was_running = st.process_was_running
    ∧ (ms.foldl (guiRestoreOne env) st).monitors_disabled = st.monitors_disabled
    ∧ (ms.foldl (guiRestoreOne env) st).disablePasses = st.disablePasses
    ∧ (ms.foldl (guiRestoreOne env) st).restorePasses = st.restorePasses := by
  have h := foldl_proj_inv (guiRestoreOne env) guiFrame
      (fun a b => guiRestoreOne_frame env a b) ms st
  simpa [guiFrame, Prod.ext_iff] using h

theorem foldl_guiStopOne_frame (env : OsEnv) (ms : List Monitor) (st : GuiState) :
    (ms.foldl (guiStopOne env) st).monitor_settings = st.monitor_settings := by
  have h := foldl_proj_inv (guiStopOne env) guiFrame
      (fun a b => guiStopOne_frame env a b) ms st
  have h2 := congrArg Prod.fst h
  simpa [guiFrame] using h2

/- Effect lemmas for the per-monitor passes. -/

/-- Under an all-success oracle the console disable pass issues exactly
one disable call per monitor, in list order. -/
theorem foldl_consoleDisableOne_calls (E : List EnumEntry) :
    ∀ (ms : List Monitor) (st : ConsoleState),
      (ms.foldl (consoleDisableOne (constEnv E)) st).calls
        = st.calls ++ ms.map (fun m => disable_call m.name) := by
  intro ms
  induction ms with
  | nil => intro st; simp
  | cons mon t ih =>
      intro st
      rw [List.foldl_cons]
      have hstep : consoleDisableOne (constEnv E) st mon
          = { st with cdsCount := st.cdsCount + 1
                    , calls := st.calls ++ [disable_call mon.name]
                    , disabledSet := st.disabledSet ++ [mon.name] } := rfl
      rw [hstep, ih]
      simp

/-- The GUI disable pass issues exactly one disable call per monitor, in
list order, under every oracle. -/
theorem foldl_guiDisableOne_calls (env : OsEnv) :
    ∀ (ms : List Monitor) (st : GuiState),
      (ms.foldl (guiDisableOne env) st).calls
        = st.calls ++ ms.map (fun m => disable_call m.name) := by
  intro ms
  induction ms with
  | nil => intro st; simp
  | cons mon t ih =>
      intro st
      rw [List.foldl_cons]
      have hstep : guiDisableOne env st mon
          = { st with cdsCount := st.cdsCount + 1
                    , calls := st.calls ++ [disable_call mon.name]
                    , disabledSet := st.disabledSet ++ [mon.name] } := rfl
      rw [hstep, ih]
      simp

/-- The console disable pass appends every monitor's name to the ghost
set of acted-on identifiers, whatever the call results. -/
theorem foldl_consoleDisableOne_set (env : OsEnv) :
    ∀ (ms : List Monitor) (st : ConsoleState),
      (ms.foldl (consoleDisableOne env) st).disabledSet
        = st.disabledSet ++ ms.map Monitor.name := by
  intro ms
  induction ms with
  | nil => intro st; simp
  | cons mon t ih =>
      intro st
      rw [List.foldl_cons, ih]
      have hstep : (consoleDisableOne env st mon).disabledSet
          = st.disabledSet ++ [mon.name] := by
        simp only [consoleDisableOne]
        split <;> rfl
      rw [hstep]
      simp

/-- The GUI disable pass appends every monitor's name to the ghost set of
acted-on identifiers. -/
theorem foldl_guiDisableOne_set (env : OsEnv) :
    ∀ (ms : List Monitor) (st : GuiState),
      (ms.foldl (guiDisableOne env) st).disabledSet
        = st.disabledSet ++ ms.map Monitor.name := by
  intro ms
  induction ms with
  | nil => intro st; simp
  | cons mon t ih =>
      intro st
      rw [List.foldl_cons, ih]
      simp [guiDisableOne]

/-- Under an all-success oracle the console restore pass issues exactly
the single-attempt restore calls for the snapshotted monitors. -/
theorem foldl_consoleRestoreOne_calls (E : List EnumEntry) :
    ∀ (ms : List Monitor) (st : ConsoleState),
      (ms.foldl (consoleRestoreOne (constEnv E)) st).calls
        = st.calls ++ restoreAttempts ms st.monitor_settings := by
  intro ms
  induction ms with
  | nil => intro st; simp [restoreAttempts]
  | cons mon t ih =>
      intro st
      rw [List.foldl_cons]
      cases h : mapLookup st.monitor_settings mon.name with
      | none =>
          have hstep : consoleRestoreOne (constEnv E) st mon = st := by
            simp only [consoleRestoreOne, h]
          rw [hstep, ih]
          simp [restoreAttempts, List.filterMap_cons, h]
      | some s =>
          have hstep : consoleRestoreOne (constEnv E) st mon
              = { st with cdsCount := st.cdsCount + 1
                        , calls := st.calls ++ [restore_call mon.name s] } := by
            simp only [consoleRestoreOne, h]
            rfl
          rw [hstep, ih]
          simp [restoreAttempts, List.filterMap_cons, h]

/-- The GUI restore pass issues exactly one restore call per snapshotted
monitor, under every oracle. -/
theorem foldl_guiRestoreOne_calls (env : OsEnv) :
    ∀ (ms : List Monitor) (st : GuiState),
      (ms.foldl (guiRestoreOne env) st).calls
        = st.calls ++ restoreAttempts ms st.monitor_settings := by
  intro ms
  induction ms with
  | nil => intro st; simp [restoreAttempts]
  | cons mon t ih =>
      intro st
      rw [List.foldl_cons]
      cases h : mapLookup st.monitor_settings mon.name with
      | none =>
          have hstep : guiRestoreOne env st mon = st := by
            simp only [guiRestoreOne, h]
          rw [hstep, ih]
          simp [restoreAttempts, List.filterMap_cons, h]
      | some s =>
          have hstep : guiRestoreOne env st mon
              = { st with cdsCount := st.cdsCount + 1
                        , calls := st.calls ++ [restore_call mon.name s] } := by
            simp only [guiRestoreOne, h]
            rfl
          rw [hstep, ih]
          simp [restoreAttempts, List.filterMap_cons, h]

/-- The console shutdown pass issues exactly one restore call per
snapshotted monitor, under every oracle. -/
theorem foldl_consoleShutdownOne_calls (env : OsEnv) :
    ∀ (ms : List Monitor) (st : ConsoleState),
      (ms.foldl (consoleShutdownOne env) st).calls
        = st.calls ++ restoreAttempts ms st.monitor_settings := by
  intro ms
  induction ms with
  | nil => intro st; simp [restoreAttempts]
  | cons mon t ih =>
      intro st
      rw [List.foldl_cons]
      cases h : mapLookup st.monitor_settings mon.name with
      | none =>
          have hstep : consoleShutdownOne env st mon = st := by
            simp only [consoleShutdownOne, h]
          rw [hstep, ih]
          simp [restoreAttempts, List.filterMap_cons, h]
      | some s =>
          have hstep : consoleShutdownOne env st mon
              = { st with cdsCount := st.cdsCount + 1
                        , calls := st.calls ++ [restore_call mon.name s] } := by
            simp only [consoleShutdownOne, h]
            rfl
          rw [hstep, ih]
          simp [restoreAttempts, List.filterMap_cons, h]

/-- The GUI stop pass issues exactly one restore call per snapshotted
monitor, under every oracle. -/
theorem foldl_guiStopOne_calls (env : OsEnv) :
    ∀ (ms : List Monitor) (st : GuiState),
      (ms.foldl (guiStopOne env) st).calls
        = st.calls ++ restoreAttempts ms st.monitor_settings := by
  intro ms
  induction ms with
  | nil => intro st; simp [restoreAttempts]
  | cons mon t ih =>
      intro st
      rw [List.foldl_cons]
      cases h : mapLookup st.monitor_settings mon.name with
      | none =>
          have hstep : guiStopOne env st mon = st := by
            simp only [guiStopOne, h]
          rw [hstep, ih]
          simp [restoreAttempts, List.filterMap_cons, h]
      | some s =>
          have hstep : guiStopOne env st mon
              = { st with cdsCount := st.cdsCount + 1
                        , calls := st.calls ++ [restore_call mon.name s] } := by
            simp only [guiStopOne, h]
            rfl
          rw [hstep, ih]
          simp [restoreAttempts, List.filterMap_cons, h]

/- Dictionary lemmas. -/

/-- Lookup after dictionary assignment. -/
theorem mapLookup_mapInsert :
    ∀ (m : SettingsMap) (k q : String) (v : DEVMODE),
      mapLookup (mapInsert m k v) q = if k = q then some v else mapLookup m q := by
  intro m
  induction m with
  | nil => intro k q v; simp [mapInsert, mapLookup]
  | cons p rest ih =>
      intro k q v
      obtain ⟨k2, v2⟩ := p
      by_cases h : k2 = k
      · subst h
        simp only [mapInsert, if_pos rfl, mapLookup]
        by_cases h2 : k2 = q <;> simp [h2]
      · simp only [mapInsert, if_neg h, mapLookup, ih]
        by_cases h2 : k2 = q
        · subst h2
          simp [Ne.symm h]
        · simp [h2]

/-- Lookup after a save_monitor_settings fold over an arbitrary monitor
list: the last capture for the queried name wins; names the list does not
mention keep their prior entry. -/
theorem save_foldl_lookup :
    ∀ (ms : List Monitor) (prior : SettingsMap) (q : String),
      mapLookup (ms.foldl (fun acc mon => mapInsert acc mon.name mon.settings) prior) q
        = match pickLast ms q with
          | some m => some m
          | none => mapLookup prior q := by
  intro ms
  induction ms with
  | nil => intro prior q; simp [pickLast]
  | cons mon t ih =>
      intro prior q
      rw [List.foldl_cons, ih]
      cases h : pickLast t q with
      | some m => simp [pickLast, h]
      | none =>
          simp only [pickLast, h, mapLookup_mapInsert]
          by_cases h2 : mon.name = q <;> simp [h2]

/- Step-level lemmas for the two polling loops. -/

/-- After any console loop iteration the previous-sample flag equals the
sample just processed. -/
theorem consoleStep_was (env : OsEnv) (st : ConsoleState) (s : Bool) :
    (consoleStep env st s).lol_was_running = s := by
  cases s <;> cases hw : st.lol_was_running <;>
    simp [consoleStep, hw,
      (foldl_consoleDisableOne_frame env st.secondary_monitors st).2.2.1,
      (foldl_consoleRestoreOne_frame env st.secondary_monitors st).2.2.1]

/-- After any GUI loop iteration the previous-sample flag equals the
sample just processed. -/
theorem guiStep_was (env : OsEnv) (st : GuiState) (s : Bool) :
    (guiStep env st s).process_was_running = s := by
  cases s <;> cases hw : st.process_was_running <;>
    simp [guiStep, hw]

/-- The console pass counters advance exactly on edges. -/
theorem consoleStep_passes (env : OsEnv) (st : ConsoleState) (s : Bool) :
    (consoleStep env st s).disablePasses
        = st.disablePasses + (if s && !st.lol_was_running then 1 else 0)
    ∧ (consoleStep env st s).restorePasses
        = st.restorePasses + (if !s && st.lol_was_running then 1 else 0) := by
  cases s <;> cases hw : st.lol_was_running <;>
    simp [consoleStep, hw,
      (foldl_consoleDisableOne_frame env st.secondary_monitors st).2.2.2.2.1,
      (foldl_consoleDisableOne_frame env st.secondary_monitors st).2.2.2.2.2,
      (foldl_consoleRestoreOne_frame env st.secondary_monitors st).2.2.2.2.1,
      (foldl_consoleRestoreOne_frame env st.secondary_monitors st).2.2.2.2.2]

/-- The GUI pass counters advance exactly on edges. -/
theorem guiStep_passes (env : OsEnv) (st : GuiState) (s : Bool) :
    (guiStep env st s).disablePasses
        = st.disablePasses + (if s && !st.process_was_running then 1 else 0)
    ∧ (guiStep env st s).restorePasses
        = st.restorePasses + (if !s && st.process_was_running then 1 else 0) := by
  cases s <;> cases hw : st.process_was_running <;>
    simp [guiStep, hw, foldl_guiDisableOne_frame, foldl_guiRestoreOne_frame]

/-- A console loop iteration whose sample equals the previous one changes
nothing. -/
theorem consoleStep_noop (env : OsEnv) (st : ConsoleState) (s : Bool)
    (h : s = st.lol_was_running) : consoleStep env st s = st := by
  subst h
  cases hw : st.lol_was_running <;> simp [consoleStep, hw]

/-- A GUI loop iteration whose sample equals the previous one changes
nothing. -/
theorem guiStep_noop (env : OsEnv) (st : GuiState) (s : Bool)
    (h : s = st.process_was_running) : guiStep env st s = st := by
  subst h
  cases hw : st.process_was_running <;> simp [guiStep, hw]

/-- A console loop iteration preserves the snapshot map. -/
theorem consoleStep_settings (env : OsEnv) (st : ConsoleState) (s : Bool) :
    (consoleStep env st s).monitor_settings = st.monitor_settings := by
  cases s <;> cases hw : st.lol_was_running <;>
    simp [consoleStep, hw,
      (foldl_consoleDisableOne_frame env st.secondary_monitors st).1,
      (foldl_consoleRestoreOne_frame env st.secondary_monitors st).1]

/-- A GUI loop iteration preserves the snapshot map. -/
theorem guiStep_settings (env : OsEnv) (st : GuiState) (s : Bool) :
    (guiStep env st s).monitor_settings = st.monitor_settings := by
  cases s <;> cases hw : st.process_was_running <;>
    simp [guiStep, hw, foldl_guiDisableOne_frame, foldl_guiRestoreOne_frame]

/-- Pass counters of a console loop run: one disable pass per rising edge,
one restore pass per falling edge. -/
theorem consoleFoldSamples_counts (env : OsEnv) :
    ∀ (samples : List Bool) (st : ConsoleState),
      ((samples.foldl (consoleStep env) st).disablePasses
          = st.disablePasses + countRising st.lol_was_running samples)
      ∧ ((samples.foldl (consoleStep env) st).restorePasses
          = st.restorePasses + countFalling st.lol_was_running samples) := by
  intro samples
  induction samples with
  | nil => intro st; simp [countRising, countFalling]
  | cons s t ih =>
      intro st
      rw [List.foldl_cons]
      obtain ⟨ih1, ih2⟩ := ih (consoleStep env st s)
      obtain ⟨h1, h2⟩ := consoleStep_passes env st s
      constructor
      · rw [ih1, consoleStep_was, h1, countRising, Nat.add_assoc]
      · rw [ih2, consoleStep_was, h2, countFalling, Nat.add_assoc]

/-- Pass counters of a GUI loop run: one disable pass per rising edge,
one restore pass per falling edge. -/
theorem guiFoldSamples_counts (env : OsEnv) :
    ∀ (samples : List Bool) (st : GuiState),
      ((samples.foldl (guiStep env) st).disablePasses
          = st.disablePasses + countRising st.process_was_running samples)
      ∧ ((samples.foldl (guiStep env) st).restorePasses
          = st.restorePasses + countFalling st.process_was_running samples) := by
  intro samples
  induction samples with
  | nil => intro st; simp [countRising, countFalling]
  | cons s t ih =>
      intro st
      rw [List.foldl_cons]
      obtain ⟨ih1, ih2⟩ := ih (guiStep env st s)
      obtain ⟨h1, h2⟩ := guiStep_passes env st s
      constructor
      · rw [ih1, guiStep_was, h1, countRising, Nat.add_assoc]
      · rw [ih2, guiStep_was, h2, countFalling, Nat.add_assoc]

/- Branch characterisations of the loop iterations. -/

/-- A console iteration at a rising edge. -/
theorem consoleStep_rising_eq (env : OsEnv) (c : ConsoleState)
    (h : c.lol_was_running = false) :
    consoleStep env c true
      = { (c.secondary_monitors.foldl (consoleDisableOne env) c) with
            monitors_disabled := true
          , lol_was_running := true
          , disablePasses :=
              (c.secondary_monitors.foldl (consoleDisableOne env) c).disablePasses + 1 } := by
  simp [consoleStep, h]

/-- A console iteration at a falling edge. -/
theorem consoleStep_falling_eq (env : OsEnv) (c : ConsoleState)
    (h : c.lol_was_running = true) :
    consoleStep env c false
      = { (c.secondary_monitors.foldl (consoleRestoreOne env) c) with
            monitors_disabled := false
          , lol_was_running := false
          , restorePasses :=
              (c.secondary_monitors.foldl (consoleRestoreOne env) c).restorePasses + 1
          , disabledSet := [] } := by
  simp [consoleStep, h]

/-- A GUI iteration at a rising edge: the pass runs over the freshly
enumerated secondary displays. -/
theorem guiStep_rising_eq (env : OsEnv) (g : GuiState)
    (h : g.process_was_running = false) :
    guiStep env g true
      = { (((get_all_monitors (env.enumAt g.enumCount)).filter (fun m => !m.is_primary)).foldl
              (guiDisableOne env) { g with enumCount := g.enumCount + 1 }) with
            monitors_disabled := true
          , process_was_running := true
          , disablePasses :=
              (((get_all_monitors (env.enumAt g.enumCount)).filter (fun m => !m.is_primary)).foldl
                  (guiDisableOne env) { g with enumCount := g.enumCount + 1 }).disablePasses + 1 } := by
  simp [guiStep, h]

/-- A GUI iteration at a falling edge: the pass runs over the freshly
enumerated secondary displays. -/
theorem guiStep_falling_eq (env : OsEnv) (g : GuiState)
    (h : g.process_was_running = true) :
    guiStep env g false
      = { (((get_all_monitors (env.enumAt g.enumCount)).filter (fun m => !m.is_primary)).foldl
              (guiRestoreOne env) { g with enumCount := g.enumCount + 1 }) with
            monitors_disabled := false
          , process_was_running := false
          , restorePasses :=
              (((get_all_monitors (env.enumAt g.enumCount)).filter (fun m => !m.is_primary)).foldl
                  (guiRestoreOne env) { g with enumCount := g.enumCount + 1 }).restorePasses + 1
          , disabledSet := [] } := by
  simp [guiStep, h]

/- Simulation between the two variants under a constant all-success
oracle. -/

/-- The two startup sequences are related. -/
theorem sim_init (E : List EnumEntry) :
    SimRel E (consoleInit (constEnv E)) (guiInit (constEnv E)) :=
  ⟨rfl, rfl, rfl, rfl, rfl⟩

/-- One iteration preserves the relation. -/
theorem sim_step (E : List EnumEntry) (c : ConsoleState) (g : GuiState) (s : Bool)
    (h : SimRel E c g) :
    SimRel E (consoleStep (constEnv E) c s) (guiStep (constEnv E) g s) := by
  obtain ⟨hcalls, hcset, hgset, hwas, hsec⟩ := h
  by_cases hr : s = g.process_was_running
  · rw [consoleStep_noop _ _ _ (hwas ▸ hr), guiStep_noop _ _ _ hr]
    exact ⟨hcalls, hcset, hgset, hwas, hsec⟩
  · cases s
    · have hg : g.process_was_running = true := by
        revert hr
        cases g.process_was_running <;> simp
      have hc : c.lol_was_running = true := hwas.trans hg
      rw [consoleStep_falling_eq _ _ hc, guiStep_falling_eq _ _ hg]
      refine ⟨?_, ?_, ?_, rfl, ?_⟩
      · show (c.secondary_monitors.foldl (consoleRestoreOne (constEnv E)) c).calls
            = (((get_all_monitors ((constEnv E).enumAt g.enumCount)).filter
                  (fun m => !m.is_primary)).foldl
                (guiRestoreOne (constEnv E)) { g with enumCount := g.enumCount + 1 }).calls
        rw [foldl_consoleRestoreOne_calls, foldl_guiRestoreOne_calls]
        show c.calls ++ restoreAttempts c.secondary_monitors c.monitor_settings
            = g.calls ++ restoreAttempts
                ((get_all_monitors ((constEnv E).enumAt g.enumCount)).filter
                  (fun m => !m.is_primary)) g.monitor_settings
        rw [hcalls, hcset, hgset, hsec]
        rfl
      · show (c.secondary_monitors.foldl (consoleRestoreOne (constEnv E)) c).monitor_settings
            = save_monitor_settings [] E
        rw [(foldl_consoleRestoreOne_frame (constEnv E) c.secondary_monitors c).1, hcset]
      · show (((get_all_monitors ((constEnv E).enumAt g.enumCount)).filter
                  (fun m => !m.is_primary)).foldl
                (guiRestoreOne (constEnv E)) { g with enumCount := g.enumCount + 1 }).monitor_settings
            = save_monitor_settings [] E
        rw [(foldl_guiRestoreOne_frame (constEnv E) _ _).1]
        exact hgset
      · show (c.secondary_monitors.foldl (consoleRestoreOne (constEnv E)) c).secondary_monitors
            = (get_all_monitors E).filter (fun m => !m.is_primary)
        rw [(foldl_consoleRestoreOne_frame (constEnv E) c.secondary_monitors c).2.1, hsec]
    · have hg : g.process_was_running = false := by
        revert hr
        cases g.process_was_running <;> simp
      have hc : c.lol_was_running = false := hwas.trans hg
      rw [consoleStep_rising_eq _ _ hc, guiStep_rising_eq _ _ hg]
      refine ⟨?_, ?_, ?_, rfl, ?_⟩
      · show (c.secondary_monitors.foldl (consoleDisableOne (constEnv E)) c).calls
            = (((get_all_monitors ((constEnv E).enumAt g.enumCount)).filter
                  (fun m => !m.is_primary)).foldl
                (guiDisableOne (constEnv E)) { g with enumCount := g.enumCount + 1 }).calls
        rw [foldl_consoleDisableOne_calls, foldl_guiDisableOne_calls]
        show c.calls ++ c.secondary_monitors.map (fun m => disable_call m.name)
            = g.calls ++ ((get_all_monitors ((constEnv E).enumAt g.enumCount)).filter
                  (fun m => !m.is_primary)).map (fun m => disable_call m.name)
        rw [hcalls, hsec]
        rfl
      · show (c.secondary_monitors.foldl (consoleDisableOne (constEnv E)) c).monitor_settings
            = save_monitor_settings [] E
        rw [(foldl_consoleDisableOne_frame (constEnv E) c.secondary_monitors c).1, hcset]
      · show (((get_all_monitors ((constEnv E).enumAt g.enumCount)).filter
                  (fun m => !m.is_primary)).foldl
                (guiDisableOne (constEnv E)) { g with enumCount := g.enumCount + 1 }).monitor_settings
            = save_monitor_settings [] E
        rw [(foldl_guiDisableOne_frame (constEnv E) _ _).1]
        exact hgset
      · show (c.secondary_monitors.foldl (consoleDisableOne (constEnv E)) c).secondary_monitors
            = (get_all_monitors E).filter (fun m => !m.is_primary)
        rw [(foldl_consoleDisableOne_frame (constEnv E) c.secondary_monitors c).2.1, hsec]

/-- Any number of iterations preserves the relation. -/
theorem sim_fold (E : List EnumEntry) :
    ∀ (samples : List Bool) (c : ConsoleState) (g : GuiState),
      SimRel E c g →
        SimRel E (samples.foldl (consoleStep (constEnv E)) c)
          (samples.foldl (guiStep (constEnv E)) g) := by
  intro samples
  induction samples with
  | nil => intro c g h; exact h
  | cons s t ih =>
      intro c g h
      rw [List.foldl_cons, List.foldl_cons]
      exact ih _ _ (sim_step E c g s h)

/- Claim theorems. -/

/-- Claim C1 (code_bug evaluation): the claimed invariant fails on the
code.  Against an oracle whose baseline enumeration lacks a mode for the
secondary display DISPLAY2 while the rising-edge enumeration reports it,
the GUI loop's disable pass acts on DISPLAY2 and enters the Disabled
stage although the snapshot map has no entry for it. -/
theorem c1_disabled_without_snapshot :
    (guiRun envC1 [true]).monitors_disabled = true
    ∧ "DISPLAY2" ∈ (guiRun envC1 [true]).disabledSet
    ∧ mapLookup (guiRun envC1 [true]).monitor_settings "DISPLAY2" = none := by
  decide

/-- Claim C2 (counterexample): a second save_monitor_settings call DOES
replace an identifier's already-stored mode — after saving from respA
(DISPLAY1 at modeP) and then from respB (DISPLAY1 at modeS), the stored
mode for DISPLAY1 is the later capture modeS, not the first capture. -/
theorem c2_counterexample :
    mapLookup (save_monitor_settings (save_monitor_settings [] respA) respB) "DISPLAY1"
        = some modeS
    ∧ modeS ≠ modeP := by
  decide

/-- Claim C2 (amended): save_monitor_settings overwrites: after a call,
every identifier enumerated in the response maps to its freshly captured
mode (the last capture in enumeration order), and identifiers not
enumerated keep their previous entry. -/
theorem c2_last_capture_wins :
    ∀ (prior : SettingsMap) (resp : List EnumEntry) (q : String),
      mapLookup (save_monitor_settings prior resp) q
        = match pickLast (get_all_monitors resp) q with
          | some m => some m
          | none => mapLookup prior q := by
  intro prior resp q
  exact save_foldl_lookup (get_all_monitors resp) prior q

/-- Claim C3 (counterexample): in the GUI variant a failing disable call
is NOT retried — with an oracle whose first mode-change call fails, the
rising-edge pass issues exactly one call for the secondary display. -/
theorem c3_counterexample :
    (guiRun envC3 [true]).calls = [disable_call "DISPLAY2"]
    ∧ envC3.cdsAt 0 ≠ DISP_CHANGE_SUCCESSFUL := by
  decide

/-- Claim C3 (amended): per display and pass, the console variant issues
one mode-change call when the first call succeeds and exactly two (one
retry) when it fails, while the GUI variant always issues exactly one
call; a skipped restore (no snapshot entry) issues none. -/
theorem c3_retry_counts :
    ∀ (env : OsEnv) (st : ConsoleState) (g : GuiState) (mon : Monitor),
      ((consoleDisableOne env st mon).calls.length
          = st.calls.length
              + (if env.cdsAt st.cdsCount = DISP_CHANGE_SUCCESSFUL then 1 else 2))
      ∧ ((consoleRestoreOne env st mon).calls.length
          = st.calls.length
              + (match mapLookup st.monitor_settings mon.name with
                 | none => 0
                 | some _ =>
                     if env.cdsAt st.cdsCount = DISP_CHANGE_SUCCESSFUL then 1 else 2))
      ∧ ((guiDisableOne env g mon).calls.length = g.calls.length + 1)
      ∧ ((guiRestoreOne env g mon).calls.length
          = g.calls.length
              + (match mapLookup g.monitor_settings mon.name with
                 | none => 0
                 | some _ => 1)) := by
  intro env st g mon
  refine ⟨?_, ?_, ?_, ?_⟩
  · by_cases h : env.cdsAt st.cdsCount = DISP_CHANGE_SUCCESSFUL <;>
      simp [consoleDisableOne, disable_monitor, h]
  · cases hm : mapLookup st.monitor_settings mon.name with
    | none => simp [consoleRestoreOne, hm]
    | some s =>
        by_cases h : env.cdsAt st.cdsCount = DISP_CHANGE_SUCCESSFUL <;>
          simp [consoleRestoreOne, restore_monitor, hm, h]
  · simp [guiDisableOne]
  · cases hm : mapLookup g.monitor_settings mon.name with
    | none => simp [guiRestoreOne, hm]
    | some s => simp [guiRestoreOne, hm]

/-- Claim C4 (counterexample): the disable call is NOT issued with
CDS_UPDATEREGISTRY — the source passes the literal 0 as the flags
argument of ChangeDisplaySettingsEx. -/
theorem c4_counterexample :
    (disable_monitor "DISPLAY2" 0).1.flags = 0
    ∧ CDS_UPDATEREGISTRY = 1
    ∧ (disable_monitor "DISPLAY2" 0).1.flags ≠ CDS_UPDATEREGISTRY := by
  decide

/-- Claim C4 (amended): disable issues a single mode-change call with
width 0, height 0, position zeroed, field mask
DM_PELSWIDTH | DM_PELSHEIGHT | DM_POSITION and flags 0 (dynamic change,
registry not updated), and reports success exactly when the OS returns
DISP_CHANGE_SUCCESSFUL. -/
theorem c4_disable_contract :
    ∀ (monitor_name : String) (code : Int),
      (disable_monitor monitor_name code).1.deviceName = monitor_name
      ∧ (disable_monitor monitor_name code).1.devmode.dmPelsWidth = 0
      ∧ (disable_monitor monitor_name code).1.devmode.dmPelsHeight = 0
      ∧ (disable_monitor monitor_name code).1.devmode.dmPositionX = 0
      ∧ (disable_monitor monitor_name code).1.devmode.dmPositionY = 0
      ∧ (disable_monitor monitor_name code).1.devmode.dmFields
          = (DM_PELSWIDTH ||| DM_PELSHEIGHT ||| DM_POSITION)
      ∧ (disable_monitor monitor_name code).1.flags = 0
      ∧ ((disable_monitor monitor_name code).2 = true ↔ code = DISP_CHANGE_SUCCESSFUL) := by
  intro monitor_name code
  refine ⟨rfl, rfl, rfl, rfl, rfl, rfl, rfl, ?_⟩
  simp [disable_monitor]

/-- Claim C5: both loops are edge-triggered — over any sample sequence
the number of disable passes equals the number of false-to-true sample
transitions (previous sample initially false) and the number of restore
passes equals the number of true-to-false transitions, and an iteration
whose sample equals the previous one changes nothing. -/
theorem c5_edge_triggering :
    ∀ (env : OsEnv) (samples : List Bool),
      (consoleRun env samples).disablePasses = countRising false samples
      ∧ (consoleRun env samples).restorePasses = countFalling false samples
      ∧ (guiRun env samples).disablePasses = countRising false samples
      ∧ (guiRun env samples).restorePasses = countFalling false samples
      ∧ (∀ (st : ConsoleState) (s : Bool),
          s = st.lol_was_running → consoleStep env st s = st)
      ∧ (∀ (g : GuiState) (s : Bool),
          s = g.process_was_running → guiStep env g s = g) := by
  intro env samples
  obtain ⟨hc1, hc2⟩ := consoleFoldSamples_counts env samples (consoleInit env)
  obtain ⟨hg1, hg2⟩ := guiFoldSamples_counts env samples (guiInit env)
  refine ⟨?_, ?_, ?_, ?_, consoleStep_noop env, guiStep_noop env⟩
  · simpa [consoleRun, consoleInit] using hc1
  · simpa [consoleRun, consoleInit] using hc2
  · simpa [guiRun, guiInit] using hg1
  · simpa [guiRun, guiInit] using hg2

/-- Witness for C5 at a concrete oracle, sample list and state. -/
theorem c5_edge_triggering_witness :
    (consoleRun envStable [true, true, false]).disablePasses
        = countRising false [true, true, false]
    ∧ consoleStep envStable (consoleInit envStable) false = consoleInit envStable
    ∧ guiStep envStable (guiInit envStable) false = guiInit envStable := by
  have h := c5_edge_triggering envStable [true, true, false]
  exact ⟨h.1, h.2.2.2.2.1 (consoleInit envStable) false (by decide),
         h.2.2.2.2.2 (guiInit envStable) false (by decide)⟩

/-- Claim C6 (counterexample): a controlled shutdown in the Disabled
state does NOT attempt a restore for every secondary display — against
the envC6 oracle the console run disables the secondary DISPLAY2 (absent
from the baseline snapshot), and the shutdown pass then issues no
restore call at all for it. -/
theorem c6_counterexample :
    (consoleRun envC6 [true]).monitors_disabled = true
    ∧ (consoleRun envC6 [true]).secondary_monitors.map Monitor.name = ["DISPLAY2"]
    ∧ (consoleShutdown envC6 (consoleRun envC6 [true])).calls
        = (consoleRun envC6 [true]).calls := by
  decide

/-- Claim C6 (amended): a controlled shutdown in the Disabled state
attempts a restore exactly for every secondary display that has a
snapshot entry (console: the startup secondary list; GUI: a freshly
enumerated secondary list), and a shutdown in any other state performs
no restore calls. -/
theorem c6_shutdown_restore :
    ∀ (env : OsEnv) (st : ConsoleState) (g : GuiState),
      (st.monitors_disabled = true →
        (consoleShutdown env st).calls
          = st.calls ++ restoreAttempts st.secondary_monitors st.monitor_settings)
      ∧ (st.monitors_disabled = false → consoleShutdown env st = st)
      ∧ (g.monitors_disabled = true →
        (guiStop env g).calls
          = g.calls ++ restoreAttempts
              ((get_all_monitors (env.enumAt g.enumCount)).filter (fun m => !m.is_primary))
              g.monitor_settings)
      ∧ (g.monitors_disabled = false → guiStop env g = g) := by
  intro env st g
  refine ⟨?_, ?_, ?_, ?_⟩
  · intro h
    simp only [consoleShutdown, h, if_true]
    rw [foldl_consoleShutdownOne_calls]
  · intro h
    simp [consoleShutdown, h]
  · intro h
    simp only [guiStop, h, if_true]
    rw [foldl_guiStopOne_calls]
  · intro h
    simp [guiStop, h]

/-- Witness for C6 at concrete Disabled and Idle states. -/
theorem c6_shutdown_restore_witness :
    (consoleShutdown envStable stDisabled).calls
        = stDisabled.calls
            ++ restoreAttempts stDisabled.secondary_monitors stDisabled.monitor_settings
    ∧ consoleShutdown envStable (consoleInit envStable) = consoleInit envStable
    ∧ (guiStop envStable gDisabled).calls
        = gDisabled.calls
            ++ restoreAttempts
                ((get_all_monitors (envStable.enumAt gDisabled.enumCount)).filter
                  (fun m => !m.is_primary))
                gDisabled.monitor_settings
    ∧ guiStop envStable (guiInit envStable) = guiInit envStable := by
  have h := c6_shutdown_restore envStable stDisabled gDisabled
  have h2 := c6_shutdown_restore envStable (consoleInit envStable) (guiInit envStable)
  exact ⟨h.1 (by decide), h2.2.1 (by decide), h.2.2.1 (by decide), h2.2.2.2 (by decide)⟩

/-- Claim C7: restore passes the captured mode structure verbatim — the
issued call carries exactly the given DEVMODE, success is exactly the
OS success code, and a mode captured into the snapshot by
save_monitor_settings is reapplied field-for-field equal. -/
theorem c7_restore_round_trip :
    ∀ (monitor_name : String) (mode : DEVMODE) (code : Int)
      (resp : List EnumEntry) (q : String) (m : DEVMODE),
      (restore_monitor monitor_name mode code).1
          = { deviceName := monitor_name, devmode := mode, flags := 0 }
      ∧ ((restore_monitor monitor_name mode code).2 = true ↔ code = DISP_CHANGE_SUCCESSFUL)
      ∧ (mapLookup (save_monitor_settings [] resp) q = some m →
          (restore_monitor q m code).1.devmode = m) := by
  intro monitor_name mode code resp q m
  refine ⟨rfl, ?_, fun _ => rfl⟩
  simp [restore_monitor]

/-- Witness for C7: a capture into the snapshot restored verbatim. -/
theorem c7_restore_round_trip_witness :
    mapLookup (save_monitor_settings [] respB) "DISPLAY1" = some modeS
    ∧ (restore_monitor "DISPLAY1" modeS 0).1.devmode = modeS := by
  refine ⟨by decide, ?_⟩
  exact (c7_restore_round_trip "DISPLAY1" modeS 0 respB "DISPLAY1" modeS).2.2 (by decide)

/-- Claim C8 (counterexample): the console variant does NOT enumerate at
the rising edge — against the envC8 oracle, whose post-startup
enumerations report DISPLAY3 as the only secondary, the console disable
pass still acts on the startup-computed DISPLAY2. -/
theorem c8_counterexample :
    (consoleRun envC8 [true]).disabledSet = ["DISPLAY2"]
    ∧ ((get_all_monitors (envC8.enumAt 2)).filter (fun m => !m.is_primary)).map Monitor.name
        = ["DISPLAY3"] := by
  decide

/-- Claim C8 (amended): on a rising edge the GUI variant disables exactly
the non-primary displays of a fresh enumeration performed at that moment,
while the console variant disables exactly the secondary list computed
once at startup, performing no fresh enumeration. -/
theorem c8_enumeration_source :
    ∀ (env : OsEnv) (st : ConsoleState) (g : GuiState),
      (st.lol_was_running = false →
        (consoleStep env st true).disabledSet
          = st.disabledSet ++ st.secondary_monitors.map Monitor.name)
      ∧ (g.process_was_running = false →
        (guiStep env g true).disabledSet
          = g.disabledSet
              ++ ((get_all_monitors (env.enumAt g.enumCount)).filter
                    (fun m => !m.is_primary)).map Monitor.name) := by
  intro env st g
  constructor
  · intro h
    rw [consoleStep_rising_eq env st h]
    show (st.secondary_monitors.foldl (consoleDisableOne env) st).disabledSet
        = st.disabledSet ++ st.secondary_monitors.map Monitor.name
    rw [foldl_consoleDisableOne_set]
  · intro h
    rw [guiStep_rising_eq env g h]
    show (((get_all_monitors (env.enumAt g.enumCount)).filter (fun m => !m.is_primary)).foldl
            (guiDisableOne env) { g with enumCount := g.enumCount + 1 }).disabledSet
        = g.disabledSet
            ++ ((get_all_monitors (env.enumAt g.enumCount)).filter
                  (fun m => !m.is_primary)).map Monitor.name
    rw [foldl_guiDisableOne_set]

/-- Witness for C8 at the concrete stable oracle and startup states. -/
theorem c8_enumeration_source_witness :
    (consoleStep envStable (consoleInit envStable) true).disabledSet
        = (consoleInit envStable).disabledSet
            ++ (consoleInit envStable).secondary_monitors.map Monitor.name
    ∧ (guiStep envStable (guiInit envStable) true).disabledSet
        = (guiInit envStable).disabledSet
            ++ ((get_all_monitors (envStable.enumAt (guiInit envStable).enumCount)).filter
                  (fun m => !m.is_primary)).map Monitor.name := by
  have h := c8_enumeration_source envStable (consoleInit envStable) (guiInit envStable)
  exact ⟨h.1 (by decide), h.2 (by decide)⟩

/-- Claim C9 (counterexample): given the same presence samples and the
same OS responses (first mode change fails, later ones succeed), the two
variants do NOT issue the same calls — the console loop issues two
disable calls (original plus retry) where the GUI loop issues one. -/
theorem c9_counterexample :
    (consoleRun envC9 [true]).calls.length = 2
    ∧ (guiRun envC9 [true]).calls.length = 1 := by
  decide

/-- Claim C9 (amended): the two loops agree exactly when their behaviours
cannot diverge — under any constant enumeration answer with every
mode-change call succeeding, both variants issue the same sequence of
disable and restore calls for every sample sequence. -/
theorem c9_const_env_equivalence :
    ∀ (E : List EnumEntry) (samples : List Bool),
      (consoleRun (constEnv E) samples).calls = (guiRun (constEnv E) samples).calls := by
  intro E samples
  exact (sim_fold E samples (consoleInit (constEnv E)) (guiInit (constEnv E)) (sim_init E)).1

/-- Claim C10: the snapshot map is written only by the startup
save_monitor_settings call — after any run of either loop, and after a
subsequent controlled shutdown, it still equals the baseline captured
from the startup enumeration. -/
theorem c10_snapshot_frame :
    ∀ (env : OsEnv) (samples : List Bool),
      (consoleRun env samples).monitor_settings = save_monitor_settings [] (env.enumAt 0)
      ∧ (guiRun env samples).monitor_settings = save_monitor_settings [] (env.enumAt 0)
      ∧ (consoleShutdown env (consoleRun env samples)).monitor_settings
          = save_monitor_settings [] (env.enumAt 0)
      ∧ (guiStop env (guiRun env samples)).monitor_settings
          = save_monitor_settings [] (env.enumAt 0) := by
  intro env samples
  have hc : (consoleRun env samples).monitor_settings
      = save_monitor_settings [] (env.enumAt 0) := by
    have h := foldl_proj_inv (consoleStep env) ConsoleState.monitor_settings
        (fun a b => consoleStep_settings env a b) samples (consoleInit env)
    simpa [consoleRun, consoleInit] using h
  have hg : (guiRun env samples).monitor_settings
      = save_monitor_settings [] (env.enumAt 0) := by
    have h := foldl_proj_inv (guiStep env) GuiState.monitor_settings
        (fun a b => guiStep_settings env a b) samples (guiInit env)
    simpa [guiRun, guiInit] using h
  have hsd : ∀ (st : ConsoleState),
      (consoleShutdown env st).monitor_settings = st.monitor_settings := by
    intro st
    simp only [consoleShutdown]
    split
    · exact foldl_consoleShutdownOne_frame env st.secondary_monitors st
    · rfl
  have hgs : ∀ (g : GuiState), (guiStop env g).monitor_settings = g.monitor_settings := by
    intro g
    simp only [guiStop]
    split
    · rw [foldl_guiStopOne_frame]
    · rfl
  exact ⟨hc, hg, (hsd _).trans hc, (hgs _).trans hg⟩
